import Mathlib

/-!
Verification of the libcamera core slice: BoundMethodBase::activatePack
(bound_method.cpp), V4L2PixelFormat::toString and toPixelFormat
(v4l2_pixelformat.cpp), and the cross-thread event/signal behaviour
exercised by the threaded event test (event-thread.cpp).

Machine integers are modelled as Nat with explicit masking where overflow
matters.  Stateful and concurrent behaviour is modelled by explicit state
records and step relations/functions.
-/

namespace libcamera

/-! ## ConnectionType and thread identity

ConnectionType is a C enum; its underlying integer values follow the
declaration order in bound_method.h (Auto, Direct, Queued, Blocking).
It is kept as Nat so that out-of-range enum values representable in the
C type can be discussed.
-/

def ConnectionTypeAuto : Nat := 0

def ConnectionTypeDirect : Nat := 1

def ConnectionTypeQueued : Nat := 2

def ConnectionTypeBlocking : Nat := 3

/-- Opaque identity of a Thread, used only for equality comparison
(Thread::current() == object_->thread()). -/
structure ThreadId where
  id : Nat
deriving DecidableEq, Repr

/-- Observable actions performed by BoundMethodBase::activatePack, in
program order: invokePack runs the bound method on the caller's stack;
postMessage posts an InvokeMessage carrying the pack to the receiver
object, with or without an attached Semaphore; acquireSemaphore blocks
the caller on the fresh semaphore. -/
inductive Action where
  | invokePack
  | postMessage (hasSemaphore : Bool)
  | acquireSemaphore
deriving DecidableEq, Repr

/-- The Auto-resolution prologue of activatePack (bound_method.cpp lines
358-364): a stored ConnectionTypeAuto becomes Direct when the caller's
current thread equals the receiver object's thread, Queued otherwise;
any other stored type is kept unchanged. -/
def resolveConnectionType (connectionType : Nat) (curThread objThread : ThreadId) : Nat :=
  if connectionType = ConnectionTypeAuto then
    if curThread = objThread then ConnectionTypeDirect else ConnectionTypeQueued
  else
    connectionType

/-- BoundMethodBase::activatePack (bound_method.cpp lines 355-392),
abstracted to its observable actions and boolean return value.  The
switch has cases for Queued (post without semaphore, return false) and
Blocking (post with a fresh semaphore, acquire it, return true); Direct
shares the default branch (invoke the pack directly, return true). -/
def activatePack (connectionType : Nat) (curThread objThread : ThreadId) :
    List Action × Bool :=
  let t := resolveConnectionType connectionType curThread objThread
  if t = ConnectionTypeQueued then
    ([Action.postMessage false], false)
  else if t = ConnectionTypeBlocking then
    ([Action.postMessage true, Action.acquireSemaphore], true)
  else
    ([Action.invokePack], true)

end libcamera

namespace libcamera

/-! ## Claims C1-C4 and C10 about activatePack -/

/-- C2: for a stored connection type Auto, the effective connection type
is Direct exactly when the caller's thread equals the receiver's owning
thread, and Queued exactly otherwise. -/
theorem auto_resolves_direct_iff_same_thread (cur obj : ThreadId) :
    (resolveConnectionType ConnectionTypeAuto cur obj = ConnectionTypeDirect ↔ cur = obj) ∧
    (resolveConnectionType ConnectionTypeAuto cur obj = ConnectionTypeQueued ↔ cur ≠ obj) := by
  unfold resolveConnectionType ConnectionTypeAuto ConnectionTypeDirect ConnectionTypeQueued
  by_cases h : cur = obj <;> simp [h]

/-- Witness for C2 at concrete thread ids 5 = 5 and 5 ≠ 6. -/
theorem auto_resolves_direct_iff_same_thread_w :
    resolveConnectionType ConnectionTypeAuto ⟨5⟩ ⟨5⟩ = ConnectionTypeDirect ∧
    resolveConnectionType ConnectionTypeAuto ⟨5⟩ ⟨6⟩ = ConnectionTypeQueued :=
  ⟨(auto_resolves_direct_iff_same_thread ⟨5⟩ ⟨5⟩).1.mpr rfl,
   (auto_resolves_direct_iff_same_thread ⟨5⟩ ⟨6⟩).2.mpr (by decide)⟩

/-- C3: with effective connection type Queued, activatePack posts an
InvokeMessage with no semaphore, never invokes the pack on the caller's
stack, and returns false (return value not usable by the caller). -/
theorem queued_posts_and_returns_false (ct : Nat) (cur obj : ThreadId)
    (h : resolveConnectionType ct cur obj = ConnectionTypeQueued) :
    (activatePack ct cur obj).1 = [Action.postMessage false] ∧
    Action.invokePack ∉ (activatePack ct cur obj).1 ∧
    (activatePack ct cur obj).2 = false := by
  unfold activatePack
  rw [h]
  simp [ConnectionTypeQueued]

/-- Witness for C3: a stored Queued type from any threads. -/
theorem queued_posts_and_returns_false_w :
    (activatePack ConnectionTypeQueued ⟨1⟩ ⟨2⟩).1 = [Action.postMessage false] ∧
    Action.invokePack ∉ (activatePack ConnectionTypeQueued ⟨1⟩ ⟨2⟩).1 ∧
    (activatePack ConnectionTypeQueued ⟨1⟩ ⟨2⟩).2 = false :=
  queued_posts_and_returns_false ConnectionTypeQueued ⟨1⟩ ⟨2⟩ (by decide)

/-- C4: with effective connection type Direct, activatePack invokes the
bound method synchronously on the caller's stack (invokePack) and
returns true (return value usable by the caller). -/
theorem direct_invokes_and_returns_true (ct : Nat) (cur obj : ThreadId)
    (h : resolveConnectionType ct cur obj = ConnectionTypeDirect) :
    (activatePack ct cur obj).1 = [Action.invokePack] ∧
    (activatePack ct cur obj).2 = true := by
  unfold activatePack
  rw [h]
  simp [ConnectionTypeDirect, ConnectionTypeQueued, ConnectionTypeBlocking]

/-- Witness for C4: a stored Auto type with caller and receiver on the
same thread resolves to Direct. -/
theorem direct_invokes_and_returns_true_w :
    (activatePack ConnectionTypeAuto ⟨3⟩ ⟨3⟩).1 = [Action.invokePack] ∧
    (activatePack ConnectionTypeAuto ⟨3⟩ ⟨3⟩).2 = true :=
  direct_invokes_and_returns_true ConnectionTypeAuto ⟨3⟩ ⟨3⟩ (by decide)

/-- C1 counterexample: a Blocking call whose caller thread equals the
receiver's owning thread is NOT detected as a programming error: the
Blocking branch is entered and the caller proceeds to block on the
semaphore.  No diagnostic action exists anywhere in activatePack. -/
theorem blocking_same_thread_blocks_anyway :
    Action.acquireSemaphore ∈ (activatePack ConnectionTypeBlocking ⟨0⟩ ⟨0⟩).1 := by
  decide

/-- C1 amended: a Blocking call with caller and receiver on the same
thread is handled exactly like any other Blocking call: activatePack
posts an InvokeMessage with a fresh semaphore and blocks the caller on
it (the deadlock documented in bound_method.cpp), emitting no
diagnostic. -/
theorem blocking_same_thread_posts_and_blocks (t : ThreadId) :
    activatePack ConnectionTypeBlocking t t =
      ([Action.postMessage true, Action.acquireSemaphore], true) := by
  unfold activatePack resolveConnectionType
  simp [ConnectionTypeBlocking, ConnectionTypeAuto, ConnectionTypeQueued]

/-! ## C5: the Blocking protocol between caller and receiver thread

The caller side (post the InvokeMessage with a fresh Semaphore, then
acquire it) is bound_method.cpp lines 381-390.  The receiver side is
modelled from the spec: the receiver thread's loop dispatches the
InvokeMessage by invoking the carried BoundMethod, which stores its
return value in the pack, and releases the attached semaphore
immediately after the call returns (spec section 4.4).  retVal is the
value the target thread's method produces.
-/

/-- Joint state of the blocking call: the caller's progress, the
receiver object's message queue length, the semaphore count (fresh, so
initially 0), whether the receiver has executed the method, the pack's
return-value slot, and activatePack's outcome. -/
structure BlockState where
  posted : Bool
  queue : Nat
  sem : Nat
  executed : Bool
  packRet : Option Nat
  returned : Bool
  usable : Bool
deriving DecidableEq, Repr

/-- Initial state: nothing posted, empty queue, fresh semaphore at 0. -/
def blockInit : BlockState :=
  { posted := false, queue := 0, sem := 0, executed := false,
    packRet := none, returned := false, usable := false }

/-- Interleaved small steps of the blocking invocation.  post and
acquire are the caller's two actions in activatePack's Blocking branch;
process is the receiver thread's dispatch of the InvokeMessage.
Modelled from the spec: the receiver-side dispatch (process) invokes
the bound method, stores retVal in the pack, and releases the semaphore
immediately after the call returns. -/
inductive BlockStep (retVal : Nat) : BlockState → BlockState → Prop
  | post (s : BlockState) : s.posted = false →
      BlockStep retVal s { s with posted := true, queue := s.queue + 1 }
  | process (s : BlockState) : 0 < s.queue →
      BlockStep retVal s { s with queue := s.queue - 1, executed := true,
                                  packRet := some retVal, sem := s.sem + 1 }
  | acquire (s : BlockState) : s.posted = true → s.returned = false → 0 < s.sem →
      BlockStep retVal s { s with sem := s.sem - 1, returned := true, usable := true }

/-- Reachability through interleaved blocking-protocol steps. -/
def BlockReaches (retVal : Nat) : BlockState → BlockState → Prop :=
  Relation.ReflTransGen (BlockStep retVal)

/-- Inductive invariant: a positive semaphore count, and a fortiori a
completed call, certify that the receiver has executed the method and
stored its value in the pack. -/
def BlockInv (retVal : Nat) (s : BlockState) : Prop :=
  (0 < s.sem → s.executed = true ∧ s.packRet = some retVal) ∧
  (s.returned = true → s.executed = true ∧ s.packRet = some retVal ∧ s.usable = true)

theorem blockStep_inv {retVal : Nat} {s t : BlockState}
    (hs : BlockInv retVal s) (h : BlockStep retVal s t) : BlockInv retVal t := by
  cases h with
  | post hp =>
      exact ⟨fun h0 => hs.1 h0, fun hr => hs.2 hr⟩
  | process hq =>
      exact ⟨fun _ => ⟨rfl, rfl⟩, fun hr => ⟨rfl, rfl, (hs.2 hr).2.2⟩⟩
  | acquire hp hr h0 =>
      exact ⟨fun hp0 => hs.1 h0, fun _ => ⟨(hs.1 h0).1, (hs.1 h0).2, rfl⟩⟩

theorem blockReaches_inv {retVal : Nat} {s : BlockState}
    (h : BlockReaches retVal blockInit s) : BlockInv retVal s := by
  induction h with
  | refl => exact ⟨fun h0 => absurd h0 (by simp [blockInit]), fun hr => by simp [blockInit] at hr⟩
  | tail _ hstep ih => exact blockStep_inv ih hstep

/-- C5: along every interleaving of the blocking protocol, whenever
activatePack has returned, the return value is usable (true), the
target thread has already executed the bound method, and the value in
the pack equals the value the target thread produced. -/
theorem blocking_returns_after_execution (retVal : Nat) (s : BlockState)
    (h : BlockReaches retVal blockInit s) (hret : s.returned = true) :
    s.usable = true ∧ s.executed = true ∧ s.packRet = some retVal := by
  have hi := blockReaches_inv h
  exact ⟨(hi.2 hret).2.2, (hi.2 hret).1, (hi.2 hret).2.1⟩

/-- Witness for C5: the concrete trace post, process, acquire with
return value 42 reaches a returned state, and the theorem applies. -/
theorem blocking_returns_after_execution_w :
    ∃ s : BlockState, BlockReaches 42 blockInit s ∧ s.returned = true ∧
      s.usable = true ∧ s.executed = true ∧ s.packRet = some 42 := by
  have htrace : BlockReaches 42 blockInit
      { posted := true, queue := 0, sem := 0, executed := true,
        packRet := some 42, returned := true, usable := true } := by
    refine Relation.ReflTransGen.head (BlockStep.post blockInit rfl) ?_
    refine Relation.ReflTransGen.head (BlockStep.process _ (by decide)) ?_
    exact Relation.ReflTransGen.single (BlockStep.acquire _ rfl rfl (by decide))
  exact ⟨_, htrace, rfl, blocking_returns_after_execution 42 _ htrace rfl⟩

/-! ## C6: pending fd event surviving moveToThread

The scenario of the threaded event test (event-thread.cpp): an
EventHandler owns a pipe and registers a read EventNotifier on the read
end; notify() writes the 4 bytes "H2G2" to the write end; the handler
is then moved to a second thread before any dispatcher observes the
pending read; the new thread's loop then runs and dispatches the
level-triggered readiness.  Thread, moveToThread and the dispatcher are
not under src/, so their behaviour is modelled from the spec (sections
4.1 and 4.5): moveToThread reassigns affinity without dropping pending
events, and a loop iteration on the owning thread invokes the ready
notifier's callback synchronously; readReady (event-thread.cpp lines
65-69) reads the pending bytes and records the count.
-/

/-- State of the event scenario: bytes pending on the pipe's read end,
the handler object's owning thread, whether the notifier is registered,
and the callback's observations (invocation count, invoking thread,
byte count recorded by readReady). -/
structure EventState where
  pending : Nat
  affinity : Nat
  registered : Bool
  fired : Nat
  firedOn : Option Nat
  recorded : Option Nat
deriving DecidableEq, Repr

/-- EventHandler constructed on the main thread (thread 0): notifier
registered, nothing pending, callback never fired. -/
def eventInit : EventState :=
  { pending := 0, affinity := 0, registered := true,
    fired := 0, firedOn := none, recorded := none }

/-- EventHandler::notify: write the 4 bytes of "H2G2" to the pipe's
write end, making them pending on the read end. -/
def notify (s : EventState) : EventState :=
  { s with pending := 4 }

/-- Modelled from the spec: Object::moveToThread (not under src/)
reassigns the object's affinity to the new thread; pending events
already signaled on still-registered notifiers are not dropped by the
reassignment (spec section 4.1). -/
def moveToThread (t : Nat) (s : EventState) : EventState :=
  { s with affinity := t }

/-- Modelled from the spec: one iteration of thread t's event loop (not
under src/).  If t owns the object, the notifier is registered and the
fd is readable, the dispatcher invokes the callback synchronously on t:
readReady reads all pending bytes (the read drains the pipe, clearing
the level-triggered readiness) and records the byte count. -/
def loopIter (t : Nat) (s : EventState) : EventState :=
  if t = s.affinity ∧ s.registered = true ∧ 0 < s.pending then
    { s with pending := 0, fired := s.fired + 1,
             firedOn := some t, recorded := some s.pending }
  else
    s

/-- The scenario's state after notify() and moveToThread(&thread),
before any dispatcher has run. -/
def eventScenario : EventState := moveToThread 1 (notify eventInit)

theorem loopIter_drained (t : Nat) (s : EventState) (h : s.pending = 0) :
    loopIter t s = s := by
  unfold loopIter
  simp [h]

/-- C6: the 4 pending bytes survive the reassignment, and however many
iterations the new thread's loop runs (at least one), the read callback
has fired exactly once, on the new thread, recording the 4 bytes. -/
theorem pending_event_survives_move (n : Nat) (h : 1 ≤ n) :
    eventScenario.pending = 4 ∧
    ((loopIter 1)^[n] eventScenario).fired = 1 ∧
    ((loopIter 1)^[n] eventScenario).firedOn = some 1 ∧
    ((loopIter 1)^[n] eventScenario).recorded = some 4 := by
  obtain ⟨m, rfl⟩ : ∃ m, n = m + 1 := ⟨n - 1, by omega⟩
  refine ⟨rfl, ?_⟩
  have hstable : ∀ k, (loopIter 1)^[k] (loopIter 1 eventScenario) =
      loopIter 1 eventScenario := by
    intro k
    induction k with
    | zero => rfl
    | succ k ih =>
        rw [Function.iterate_succ_apply, loopIter_drained 1 _ (by decide), ih]
  have hrw : (loopIter 1)^[m + 1] eventScenario = loopIter 1 eventScenario := by
    rw [Function.iterate_succ_apply, hstable m]
  rw [hrw]
  refine ⟨by decide, by decide, by decide⟩

/-- Witness for C6 at one loop iteration. -/
theorem pending_event_survives_move_w :
    eventScenario.pending = 4 ∧
    ((loopIter 1)^[1] eventScenario).fired = 1 ∧
    ((loopIter 1)^[1] eventScenario).firedOn = some 1 ∧
    ((loopIter 1)^[1] eventScenario).recorded = some 4 :=
  pending_event_survives_move 1 (by decide)

/-! ## C7: Signal emission snapshot semantics

Signal::emit is not under src/; it is modelled from the spec (section
4.3): emit takes a stable snapshot of the currently connected entries
and, for each entry in order, copies the arguments into an isolated
pack and dispatches; connections added or removed while the emission is
in progress mutate only the live connection list, never the snapshot.
-/

/-- A signal connection entry: receiver identity and slot identity. -/
structure SignalConn where
  receiver : Nat
  slot : Nat
deriving DecidableEq, Repr

/-- Modelled from the spec: the delivery loop of Signal::emit.  conns
is the remaining snapshot, delivered accumulates (entry, arguments)
deliveries in fan-out order, live is the signal's current connection
list.  Dispatching to an entry may run arbitrary slot code that
connects or disconnects: mutate gives the live list after that slot
runs.  The snapshot is never re-read. -/
def emitAux {α : Type} (args : α) (mutate : SignalConn → List SignalConn → List SignalConn) :
    List SignalConn → List (SignalConn × α) → List SignalConn →
    List (SignalConn × α) × List SignalConn
  | [], delivered, live => (delivered, live)
  | c :: rest, delivered, live =>
      emitAux args mutate rest (delivered ++ [(c, args)]) (mutate c live)

/-- Modelled from the spec: Signal::emit snapshots the connection list
at entry and delivers along the snapshot; returns the deliveries made
and the connection list left behind for later emissions. -/
def emit {α : Type} (args : α) (conns : List SignalConn)
    (mutate : SignalConn → List SignalConn → List SignalConn) :
    List (SignalConn × α) × List SignalConn :=
  emitAux args mutate conns [] conns

theorem emitAux_deliveries {α : Type} (args : α)
    (mutate : SignalConn → List SignalConn → List SignalConn)
    (conns : List SignalConn) :
    ∀ delivered live, (emitAux args mutate conns delivered live).1 =
      delivered ++ conns.map (fun c => (c, args)) := by
  induction conns with
  | nil => intro delivered live; simp [emitAux]
  | cons c rest ih =>
      intro delivered live
      rw [emitAux, ih]
      simp

/-- C7: an emission delivers the unmodified arguments to exactly the
entries connected at the moment emit begins, one delivery per snapshot
entry in order, whatever connects or disconnects the invoked slots
perform meanwhile. -/
theorem emit_snapshot_semantics {α : Type} (args : α) (conns : List SignalConn)
    (mutate : SignalConn → List SignalConn → List SignalConn) :
    (emit args conns mutate).1 = conns.map (fun c => (c, args)) := by
  unfold emit
  rw [emitAux_deliveries]
  simp

/-! ## C8: V4L2PixelFormat::toString

v4l2_pixelformat.cpp lines 228-247.  fourcc_ is a uint32_t, modelled
as a Nat below 2^32.  The char buffer ss[8] is modelled as a list of
byte values: the four masked fourcc bytes followed by the four
zero-initialised bytes; the loop replaces non-printable characters
(C locale isprint: 0x20..0x7e) by a dot; strcat appends the bytes of
"-BE" at the first NUL; returning ss converts the buffer to a string
up to the first NUL.
-/

/-- Byte i of the fourcc masked to 7 bits, as in the ss initialiser
(fourcc_ shifted right by 8*i, masked with 0x7f). -/
def fourccByte (f i : Nat) : Nat := (f >>> (8 * i)) &&& 0x7f

/-- C locale isprint over the 0..0x7f range the masked bytes live in:
printable exactly for 0x20..0x7e. -/
def isprintAscii (b : Nat) : Bool := decide (0x20 ≤ b ∧ b ≤ 0x7e)

/-- One step of the replacement loop: a non-printable byte becomes
a dot (0x2e). -/
def replaceNonPrintable (b : Nat) : Nat := if isprintAscii b then b else 0x2e

/-- The ss buffer after the replacement loop: four replaced fourcc
bytes, then the four bytes zero-initialised by the array declaration. -/
def ssAfterLoop (f : Nat) : List Nat :=
  [fourccByte f 0, fourccByte f 1, fourccByte f 2,
   fourccByte f 3].map replaceNonPrintable ++ [0, 0, 0, 0]

/-- The bytes of a C string stored in a buffer: everything up to the
first NUL. -/
def cString (bytes : List Nat) : List Nat := bytes.takeWhile (fun b => b != 0)

/-- The bytes of the returned std::string: the C string held in ss,
with the bytes of "-BE" (0x2d 0x42 0x45) concatenated at its first NUL
when bit 31 of the fourcc is set. -/
def toStringBytes (f : Nat) : List Nat :=
  if f &&& (1 <<< 31) ≠ 0 then cString (ssAfterLoop f) ++ [0x2d, 0x42, 0x45]
  else cString (ssAfterLoop f)

namespace V4L2PixelFormat

/-- V4L2PixelFormat::toString: the INVALID sentinel for fourcc 0,
otherwise the string assembled in ss. -/
def toString (f : Nat) : String :=
  if f = 0 then "<INVALID>"
  else String.mk ((toStringBytes f).map Char.ofNat)

end V4L2PixelFormat

/-- The character C8 describes at position i: byte i of the fourcc
masked to 7 bits, replaced by a dot when not printable. -/
def describedChar (f i : Nat) : Char :=
  if 32 ≤ f / 256 ^ i % 256 % 128 ∧ f / 256 ^ i % 256 % 128 ≤ 126 then
    Char.ofNat (f / 256 ^ i % 256 % 128)
  else '.'

/-- The string C8 describes: the four characters from bytes 0..3, and
the suffix appended exactly when bit 31 of the fourcc is set. -/
def toStringDescribed (f : Nat) : String :=
  if f = 0 then "<INVALID>"
  else String.mk
    ([describedChar f 0, describedChar f 1, describedChar f 2, describedChar f 3] ++
      (if f.testBit 31 then ['-', 'B', 'E'] else []))

theorem replaceNonPrintable_ne_zero (b : Nat) : (replaceNonPrintable b != 0) = true := by
  unfold replaceNonPrintable isprintAscii
  split
  · rename_i h
    simp only [decide_eq_true_eq] at h
    simp only [bne_iff_ne, ne_eq]
    omega
  · decide

theorem cString_ssAfterLoop (f : Nat) :
    cString (ssAfterLoop f) =
      [replaceNonPrintable (fourccByte f 0), replaceNonPrintable (fourccByte f 1),
       replaceNonPrintable (fourccByte f 2), replaceNonPrintable (fourccByte f 3)] := by
  simp only [cString, ssAfterLoop, List.map, List.append_eq, List.cons_append,
    List.nil_append, List.takeWhile]
  simp [List.takeWhile, replaceNonPrintable_ne_zero]

theorem fourccByte_eq_div_mod (f i : Nat) : fourccByte f i = f / 256 ^ i % 256 % 128 := by
  unfold fourccByte
  rw [Nat.shiftRight_eq_div_pow,
      Nat.mod_mod_of_dvd _ (by norm_num : (128 : ℕ) ∣ 256),
      show (0x7f : Nat) = 2 ^ 7 - 1 from rfl, Nat.and_pow_two_sub_one_eq_mod]
  congr 2
  rw [show (256 : Nat) = 2 ^ 8 from rfl, ← pow_mul]

theorem char_of_replaced (f i : Nat) :
    Char.ofNat (replaceNonPrintable (fourccByte f i)) = describedChar f i := by
  rw [replaceNonPrintable, isprintAscii, fourccByte_eq_div_mod, describedChar]
  simp only [decide_eq_true_eq]
  split
  · rfl
  · decide

theorem be_flag_iff (f : Nat) : (f &&& (1 <<< 31) ≠ 0) ↔ f.testBit 31 := by
  rw [Nat.one_shiftLeft, Nat.and_two_pow]
  cases h : f.testBit 31 <;> simp

/-- C8: toString returns the INVALID sentinel exactly for fourcc 0, and
for every other fourcc returns the four masked and dot-replaced
characters of the fourcc with the big-endian suffix appended exactly
when bit 31 is set. -/
theorem toString_matches_description (f : Nat) (_hf : f < 2 ^ 32) :
    (V4L2PixelFormat.toString f = "<INVALID>" ↔ f = 0) ∧
    V4L2PixelFormat.toString f = toStringDescribed f := by
  have hmain : V4L2PixelFormat.toString f = toStringDescribed f := by
    unfold V4L2PixelFormat.toString toStringDescribed
    by_cases h0 : f = 0
    · simp [h0]
    · rw [if_neg h0, if_neg h0]
      unfold toStringBytes
      by_cases hbe : f &&& (1 <<< 31) ≠ 0
      · rw [if_pos hbe, if_pos ((be_flag_iff f).mp hbe), cString_ssAfterLoop]
        simp only [List.map_append, List.map, char_of_replaced]
        rfl
      · rw [if_neg hbe]
        have : f.testBit 31 = false := by
          by_contra hc
          exact hbe ((be_flag_iff f).mpr (by simpa using hc))
        rw [this, cString_ssAfterLoop]
        simp only [List.map, char_of_replaced, if_neg]
        simp
  refine ⟨⟨fun h => ?_, fun h => by simp [V4L2PixelFormat.toString, h]⟩, hmain⟩
  by_contra hne
  rw [V4L2PixelFormat.toString, if_neg hne] at h
  have hlen := congrArg String.length h
  rw [show String.length "<INVALID>" = 9 from rfl] at hlen
  have hdat : (String.mk ((toStringBytes f).map Char.ofNat)).length =
      ((toStringBytes f).map Char.ofNat).length := rfl
  rw [hdat, List.length_map] at hlen
  unfold toStringBytes at hlen
  rw [cString_ssAfterLoop] at hlen
  split at hlen <;> simp at hlen

/-- Witness for C8 at the YUYV fourcc 0x56595559 and with the
big-endian bit set on top of it. -/
theorem toString_matches_description_w :
    V4L2PixelFormat.toString 0x56595559 = "YUYV" ∧
    V4L2PixelFormat.toString (0x56595559 + 2 ^ 31) = "YUYV-BE" ∧
    V4L2PixelFormat.toString 0 = "<INVALID>" := by
  have h1 := (toString_matches_description 0x56595559 (by norm_num)).2
  have h2 := (toString_matches_description (0x56595559 + 2 ^ 31) (by norm_num)).2
  have h3 := (toString_matches_description 0 (by norm_num)).1.mpr rfl
  refine ⟨?_, ?_, h3⟩
  · rw [h1]; decide
  · rw [h2]; decide

/-! ## C9: V4L2PixelFormat::toPixelFormat and the vpf2pf table

v4l2_pixelformat.cpp lines 48-170 and 253-264.  The V4L2_PIX_FMT_*
fourcc values come from the kernel videodev2.h header (the v4l2_fourcc
macro).  The libcamera formats::* PixelFormat constants live in an
external formats header, so they are represented symbolically by name;
a default-constructed PixelFormat is the invalid one.
-/

/-- The kernel v4l2_fourcc macro: four characters packed little-endian
into a 32-bit value. -/
def v4l2Fourcc (a b c d : Char) : Nat :=
  a.toNat ||| (b.toNat <<< 8) ||| (c.toNat <<< 16) ||| (d.toNat <<< 24)

/-- libcamera::PixelFormat, with the formats::* constants of the
external formats header represented symbolically by their names; the
default-constructed PixelFormat is invalid. -/
inductive PixelFormat where
  | invalid
  | named (s : String)
deriving DecidableEq, Repr

/-- The vpf2pf map of v4l2_pixelformat.cpp: V4L2 fourcc to the
corresponding libcamera PixelFormat and human-readable description, in
source order.  All keys are distinct, so the list lookup below agrees
with std::map::find. -/
def vpf2pf : List (Nat × PixelFormat × String) := [
  (v4l2Fourcc 'R' 'G' 'B' 'P', PixelFormat.named "RGB565", "16-bit RGB 5-6-5"),
  (v4l2Fourcc 'R' 'G' 'B' 'R', PixelFormat.named "RGB565_BE", "16-bit RGB 5-6-5 BE"),
  (v4l2Fourcc 'R' 'G' 'B' '3', PixelFormat.named "BGR888", "24-bit RGB 8-8-8"),
  (v4l2Fourcc 'B' 'G' 'R' '3', PixelFormat.named "RGB888", "24-bit BGR 8-8-8"),
  (v4l2Fourcc 'X' 'R' '2' '4', PixelFormat.named "XRGB8888", "32-bit BGRX 8-8-8-8"),
  (v4l2Fourcc 'B' 'X' '2' '4', PixelFormat.named "BGRX8888", "32-bit XRGB 8-8-8-8"),
  (v4l2Fourcc 'X' 'B' '2' '4', PixelFormat.named "XBGR8888", "32-bit RGBX 8-8-8-8"),
  (v4l2Fourcc 'A' 'B' '2' '4', PixelFormat.named "ABGR8888", "32-bit RGBA 8-8-8-8"),
  (v4l2Fourcc 'A' 'R' '2' '4', PixelFormat.named "ARGB8888", "32-bit BGRA 8-8-8-8"),
  (v4l2Fourcc 'B' 'A' '2' '4', PixelFormat.named "BGRA8888", "32-bit ARGB 8-8-8-8"),
  (v4l2Fourcc 'R' 'A' '2' '4', PixelFormat.named "RGBA8888", "32-bit ABGR 8-8-8-8"),
  (v4l2Fourcc 'Y' 'U' 'Y' 'V', PixelFormat.named "YUYV", "YUYV 4:2:2"),
  (v4l2Fourcc 'Y' 'V' 'Y' 'U', PixelFormat.named "YVYU", "YVYU 4:2:2"),
  (v4l2Fourcc 'U' 'Y' 'V' 'Y', PixelFormat.named "UYVY", "UYVY 4:2:2"),
  (v4l2Fourcc 'V' 'Y' 'U' 'Y', PixelFormat.named "VYUY", "VYUY 4:2:2"),
  (v4l2Fourcc 'N' 'V' '1' '6', PixelFormat.named "NV16", "Y/CbCr 4:2:2"),
  (v4l2Fourcc 'N' 'M' '1' '6', PixelFormat.named "NV16", "Y/CbCr 4:2:2 (N-C)"),
  (v4l2Fourcc 'N' 'V' '6' '1', PixelFormat.named "NV61", "Y/CrCb 4:2:2"),
  (v4l2Fourcc 'N' 'M' '6' '1', PixelFormat.named "NV61", "Y/CrCb 4:2:2 (N-C)"),
  (v4l2Fourcc 'N' 'V' '1' '2', PixelFormat.named "NV12", "Y/CbCr 4:2:0"),
  (v4l2Fourcc 'N' 'M' '1' '2', PixelFormat.named "NV12", "Y/CbCr 4:2:0 (N-C)"),
  (v4l2Fourcc 'N' 'V' '2' '1', PixelFormat.named "NV21", "Y/CrCb 4:2:0"),
  (v4l2Fourcc 'N' 'M' '2' '1', PixelFormat.named "NV21", "Y/CrCb 4:2:0 (N-C)"),
  (v4l2Fourcc 'Y' 'U' '1' '2', PixelFormat.named "YUV420", "Planar YUV 4:2:0"),
  (v4l2Fourcc 'Y' 'M' '1' '2', PixelFormat.named "YUV420", "Planar YUV 4:2:0 (N-C)"),
  (v4l2Fourcc 'Y' 'V' '1' '2', PixelFormat.named "YVU420", "Planar YVU 4:2:0"),
  (v4l2Fourcc 'Y' 'M' '2' '1', PixelFormat.named "YVU420", "Planar YVU 4:2:0 (N-C)"),
  (v4l2Fourcc '4' '2' '2' 'P', PixelFormat.named "YUV422", "Planar YUV 4:2:2"),
  (v4l2Fourcc 'Y' 'M' '1' '6', PixelFormat.named "YUV422", "Planar YUV 4:2:2 (N-C)"),
  (v4l2Fourcc 'G' 'R' 'E' 'Y', PixelFormat.named "R8", "8-bit Greyscale"),
  (v4l2Fourcc 'B' 'A' '8' '1', PixelFormat.named "SBGGR8", "8-bit Bayer BGBG/GRGR"),
  (v4l2Fourcc 'G' 'B' 'R' 'G', PixelFormat.named "SGBRG8", "8-bit Bayer GBGB/RGRG"),
  (v4l2Fourcc 'G' 'R' 'B' 'G', PixelFormat.named "SGRBG8", "8-bit Bayer GRGR/BGBG"),
  (v4l2Fourcc 'R' 'G' 'G' 'B', PixelFormat.named "SRGGB8", "8-bit Bayer RGRG/GBGB"),
  (v4l2Fourcc 'B' 'G' '1' '0', PixelFormat.named "SBGGR10", "10-bit Bayer BGBG/GRGR"),
  (v4l2Fourcc 'G' 'B' '1' '0', PixelFormat.named "SGBRG10", "10-bit Bayer GBGB/RGRG"),
  (v4l2Fourcc 'B' 'A' '1' '0', PixelFormat.named "SGRBG10", "10-bit Bayer GRGR/BGBG"),
  (v4l2Fourcc 'R' 'G' '1' '0', PixelFormat.named "SRGGB10", "10-bit Bayer RGRG/GBGB"),
  (v4l2Fourcc 'p' 'B' 'A' 'A', PixelFormat.named "SBGGR10_CSI2P", "10-bit Bayer BGBG/GRGR Packed"),
  (v4l2Fourcc 'p' 'G' 'A' 'A', PixelFormat.named "SGBRG10_CSI2P", "10-bit Bayer GBGB/RGRG Packed"),
  (v4l2Fourcc 'p' 'g' 'A' 'A', PixelFormat.named "SGRBG10_CSI2P", "10-bit Bayer GRGR/BGBG Packed"),
  (v4l2Fourcc 'p' 'R' 'A' 'A', PixelFormat.named "SRGGB10_CSI2P", "10-bit Bayer RGRG/GBGB Packed"),
  (v4l2Fourcc 'B' 'G' '1' '2', PixelFormat.named "SBGGR12", "12-bit Bayer BGBG/GRGR"),
  (v4l2Fourcc 'G' 'B' '1' '2', PixelFormat.named "SGBRG12", "12-bit Bayer GBGB/RGRG"),
  (v4l2Fourcc 'B' 'A' '1' '2', PixelFormat.named "SGRBG12", "12-bit Bayer GRGR/BGBG"),
  (v4l2Fourcc 'R' 'G' '1' '2', PixelFormat.named "SRGGB12", "12-bit Bayer RGRG/GBGB"),
  (v4l2Fourcc 'p' 'B' 'C' 'C', PixelFormat.named "SBGGR12_CSI2P", "12-bit Bayer BGBG/GRGR Packed"),
  (v4l2Fourcc 'p' 'G' 'C' 'C', PixelFormat.named "SGBRG12_CSI2P", "12-bit Bayer GBGB/RGRG Packed"),
  (v4l2Fourcc 'p' 'g' 'C' 'C', PixelFormat.named "SGRBG12_CSI2P", "12-bit Bayer GRGR/BGBG Packed"),
  (v4l2Fourcc 'p' 'R' 'C' 'C', PixelFormat.named "SRGGB12_CSI2P", "12-bit Bayer RGRG/GBGB Packed"),
  (v4l2Fourcc 'B' 'Y' 'R' '2', PixelFormat.named "SBGGR16", "16-bit Bayer BGBG/GRGR"),
  (v4l2Fourcc 'G' 'B' '1' '6', PixelFormat.named "SGBRG16", "16-bit Bayer GBGB/RGRG"),
  (v4l2Fourcc 'G' 'R' '1' '6', PixelFormat.named "SGRBG16", "16-bit Bayer GRGR/BGBG"),
  (v4l2Fourcc 'R' 'G' '1' '6', PixelFormat.named "SRGGB16", "16-bit Bayer RGRG/GBGB"),
  (v4l2Fourcc 'M' 'J' 'P' 'G', PixelFormat.named "MJPEG", "Motion-JPEG")]

namespace V4L2PixelFormat

/-- V4L2PixelFormat::toPixelFormat: look the fourcc up in vpf2pf; on a
miss, log a warning and return the default-constructed PixelFormat. -/
def toPixelFormat (f : Nat) : PixelFormat :=
  match vpf2pf.find? (fun e => e.1 == f) with
  | none => PixelFormat.invalid
  | some e => e.2.1

end V4L2PixelFormat

theorem vpf2pf_keys_nodup : (vpf2pf.map (fun e => e.1)).Nodup := by decide

theorem find_entry_of_mem (l : List (Nat × PixelFormat × String))
    (hnd : (l.map (fun e => e.1)).Nodup) (k : Nat) (pf : PixelFormat) (d : String)
    (hmem : (k, pf, d) ∈ l) : l.find? (fun e => e.1 == k) = some (k, pf, d) := by
  induction l with
  | nil => cases hmem
  | cons a t ih =>
      rw [List.map_cons, List.nodup_cons] at hnd
      cases hmem with
      | head => simp [List.find?_cons]
      | tail _ ht =>
          have hak : a.1 ≠ k := by
            intro hak
            exact hnd.1 (hak ▸ List.mem_map_of_mem (fun e => e.1) ht)
          rw [List.find?_cons, show (a.1 == k) = false from by simpa using hak]
          exact ih hnd.2 ht

/-- C9: toPixelFormat returns the PixelFormat paired with the fourcc in
the vpf2pf table for every fourcc listed there, and the
default-constructed (invalid) PixelFormat for every fourcc not listed;
it is a total function of the fourcc alone. -/
theorem toPixelFormat_lookup (f : Nat) :
    (∀ pf d, (f, pf, d) ∈ vpf2pf → V4L2PixelFormat.toPixelFormat f = pf) ∧
    ((∀ e ∈ vpf2pf, e.1 ≠ f) → V4L2PixelFormat.toPixelFormat f = PixelFormat.invalid) := by
  constructor
  · intro pf d hmem
    unfold V4L2PixelFormat.toPixelFormat
    rw [find_entry_of_mem vpf2pf vpf2pf_keys_nodup f pf d hmem]
  · intro hmiss
    unfold V4L2PixelFormat.toPixelFormat
    have : vpf2pf.find? (fun e => e.1 == f) = none := by
      rw [List.find?_eq_none]
      intro x hx
      simpa using hmiss x hx
    rw [this]

/-- Witness for C9 at the YUYV fourcc (a hit) and at fourcc 0 (a miss). -/
theorem toPixelFormat_lookup_w :
    V4L2PixelFormat.toPixelFormat (v4l2Fourcc 'Y' 'U' 'Y' 'V') = PixelFormat.named "YUYV" ∧
    V4L2PixelFormat.toPixelFormat 0 = PixelFormat.invalid :=
  ⟨(toPixelFormat_lookup (v4l2Fourcc 'Y' 'U' 'Y' 'V')).1 (PixelFormat.named "YUYV")
      "YUYV 4:2:2" (by decide),
   (toPixelFormat_lookup 0).2 (by decide)⟩

/-- C10: activatePack is total over the integer connection-type domain:
every value that after Auto resolution is neither Queued nor Blocking,
including values outside the enum range, falls to the default branch,
which invokes the pack directly and returns true. -/
theorem default_branch_handles_rest (ct : Nat) (cur obj : ThreadId)
    (hq : resolveConnectionType ct cur obj ≠ ConnectionTypeQueued)
    (hb : resolveConnectionType ct cur obj ≠ ConnectionTypeBlocking) :
    activatePack ct cur obj = ([Action.invokePack], true) := by
  unfold activatePack
  simp [hq, hb]

/-- Witness for C10 at the out-of-range connection type 7. -/
theorem default_branch_handles_rest_w :
    activatePack 7 ⟨1⟩ ⟨2⟩ = ([Action.invokePack], true) :=
  default_branch_handles_rest 7 ⟨1⟩ ⟨2⟩ (by decide) (by decide)

end libcamera
